import Mathlib

/-!
Verification development for the `fibernewrelic` middleware
(`src/fibernewrelic/fiber.go`), a New Relic adapter for the Fiber web
framework.  The Go source is shallowly embedded: Go errors become an
inductive type, the slice of `*fiber.Ctx` the middleware reads becomes a
record, the calls the middleware makes on the monitoring library become an
event trace, and `New` becomes a function from a configuration to either a
panic or the handler it returns, with the external call
`newrelic.NewApplication` abstracted as a function parameter.
-/

namespace Fibernewrelic

/-- Transport classification values of the monitoring library used by the
source: `newrelic.TransportHTTPS`, `newrelic.TransportHTTP` and
`newrelic.TransportUnknown`. -/
inductive TransportType where
  | TransportHTTPS
  | TransportHTTP
  | TransportUnknown
deriving DecidableEq

/-- Go error values as the middleware can observe them: a `*fiber.Error`
carrying an HTTP status code and a message, a plain error (as from
`errors.New`), or an error wrapping another error (as from `fmt.Errorf`
with the `%w` verb). -/
inductive GoError where
  | fiberError (code : Int) (message : String)
  | errorString (message : String)
  | wrapped (message : String) (inner : GoError)
deriving DecidableEq

/-- Result of the Go type assertion `err.(*fiber.Error)`: it succeeds only
when the dynamic type of the error value is exactly `*fiber.Error`; it
never unwraps a wrapped error. -/
def GoError.asFiberError : GoError → Option (Int × String)
  | .fiberError code msg => some (code, msg)
  | _ => none

/-- Request-scoped Go context, restricted to the single key the newrelic
package uses to store the current transaction (transactions are identified
by a `Nat`). -/
structure Context where
  txnValue : Option Nat
deriving DecidableEq

/-- The empty context (`context.Background()`): no transaction stored. -/
def Context.background : Context := ⟨none⟩

/-- Embedding of `newrelic.NewContext`: returns a context carrying `txn`. -/
def newrelicNewContext (ctx : Context) (txn : Nat) : Context :=
  { ctx with txnValue := some txn }

/-- Embedding of `newrelic.FromContext`: the transaction stored in the
context, if any. -/
def newrelicFromContext (ctx : Context) : Option Nat :=
  ctx.txnValue

/-- Slice of `*fiber.Ctx` read by the middleware: request fields
(`c.Hostname()`, `c.Method()`, the URI scheme, path and query string), the
response status code (`c.Context().Response.StatusCode()`), and the user
context store (`c.UserContext()`). -/
structure FiberCtx where
  hostname : String
  method : String
  scheme : String
  path : String
  queryString : String
  responseStatusCode : Int
  userContext : Context
deriving DecidableEq

/-- Fields of `url.URL` that the middleware fills in. -/
structure URLData where
  Host : String
  Scheme : String
  Path : String
  RawQuery : String
deriving DecidableEq

/-- Embedding of `newrelic.WebRequest` as built by the middleware. -/
structure WebRequest where
  Host : String
  Method : String
  Transport : TransportType
  URL : URLData
deriving DecidableEq

/-- Embedding of `transport` (fiber.go): case-sensitive `strings.HasPrefix`
tests, first for `"https"`, then for `"http"`, otherwise unknown.  The Go
`strings.HasPrefix(schema, p)` is modelled as the character-wise test
`p.data.isPrefixOf schema.data`. -/
def transport (schema : String) : TransportType :=
  if "https".data.isPrefixOf schema.data then TransportType.TransportHTTPS
  else if "http".data.isPrefixOf schema.data then TransportType.TransportHTTP
  else TransportType.TransportUnknown

/-- Embedding of `createTransactionName` (fiber.go):
`fmt.Sprintf("%s %s", method, path)`. -/
def createTransactionName (c : FiberCtx) : String :=
  c.method ++ " " ++ c.path

/-- Embedding of `DefaultErrorStatusCodeHandler` (fiber.go): the code of the
`*fiber.Error` if the type assertion succeeds, otherwise the status code
already set on the response. -/
def DefaultErrorStatusCodeHandler (c : FiberCtx) (err : GoError) : Int :=
  match err.asFiberError with
  | some (code, _) => code
  | none => c.responseStatusCode

/-- Observable calls the middleware makes on the monitoring library, in
program order, plus a marker for the `c.Next()` invocation. -/
inductive Event where
  | startTransaction (txn : Nat) (name : String)
  | setWebRequest (txn : Nat) (request : WebRequest)
  | handlerInvoked
  | noticeError (txn : Nat) (err : GoError)
  | writeHeader (txn : Nat) (statusCode : Int)
  | endTransaction (txn : Nat)
deriving DecidableEq

/-- Outcome of running the downstream handler chain (`c.Next()`): the error
it returns (possibly nil) and the response status code after it returns. -/
structure HandlerResult where
  err : Option GoError
  statusCode : Int
deriving DecidableEq

/-- Everything observable about one invocation of the middleware closure:
the monitoring calls in order, the error returned to the caller, and the
context published via `c.SetUserContext`. -/
structure MiddlewareOutcome where
  events : List Event
  returnedErr : Option GoError
  publishedContext : Context
deriving DecidableEq

/-- State of the fiber context right after `c.Next()` returns: the user
context carries the transaction published before the call, and the response
status code is whatever the handler chain set. -/
def FiberCtx.afterNext (c : FiberCtx) (txn : Nat) (statusCode : Int) : FiberCtx :=
  { c with userContext := newrelicNewContext c.userContext txn,
           responseStatusCode := statusCode }

/-- Embedding of the handler closure returned by `New` (fiber.go, lines
67-98).  `errorStatusCodeHandler` is the resolved `cfg.ErrorStatusCodeHandler`,
`txn` identifies the transaction returned by `app.StartTransaction`, `c` is
the incoming request context and `next` the behaviour of `c.Next()`.  The
deferred `txn.End()` runs last, after `SetWebResponse(nil).WriteHeader`. -/
def middlewareHandler (errorStatusCodeHandler : FiberCtx → GoError → Int)
    (txn : Nat) (c : FiberCtx) (next : HandlerResult) : MiddlewareOutcome :=
  let name := createTransactionName c
  let request : WebRequest :=
    { Host := c.hostname,
      Method := c.method,
      Transport := transport c.scheme,
      URL := { Host := c.hostname, Scheme := c.scheme,
               Path := c.path, RawQuery := c.queryString } }
  let published := newrelicNewContext c.userContext txn
  let cAfter := c.afterNext txn next.statusCode
  match next.err with
  | some e =>
      { events := [Event.startTransaction txn name,
                   Event.setWebRequest txn request,
                   Event.handlerInvoked,
                   Event.noticeError txn e,
                   Event.writeHeader txn (errorStatusCodeHandler cAfter e),
                   Event.endTransaction txn],
        returnedErr := some e,
        publishedContext := published }
  | none =>
      { events := [Event.startTransaction txn name,
                   Event.setWebRequest txn request,
                   Event.handlerInvoked,
                   Event.writeHeader txn cAfter.responseStatusCode,
                   Event.endTransaction txn],
        returnedErr := none,
        publishedContext := published }

/-- Embedding of `FromContext` (fiber.go):
`newrelic.FromContext(c.UserContext())`. -/
def FromContext (c : FiberCtx) : Option Nat :=
  newrelicFromContext c.userContext

/-- Embedding of `Config` (fiber.go).  `TransportType` is the deprecated
string field; `Application` is the optional pre-built application handle
(identified by a `Nat`, `none` for Go `nil`); `ErrorStatusCodeHandler` is
`none` for a Go `nil` function. -/
structure Config where
  License : String
  AppName : String
  Enabled : Bool
  TransportType : String
  Application : Option Nat
  ErrorStatusCodeHandler : Option (FiberCtx → GoError → Int)

/-- Embedding of `ConfigDefault` (fiber.go); the unset `TransportType`
field is the Go zero value `""`. -/
def ConfigDefault : Config :=
  { License := "",
    AppName := "fiber-api",
    Enabled := false,
    TransportType := "",
    Application := none,
    ErrorStatusCodeHandler := some DefaultErrorStatusCodeHandler }

/-- Reasons the Go `New` panics: empty license with no injected application,
or a failure reported by `newrelic.NewApplication`. -/
inductive PanicKind where
  | licenseEmpty
  | appCreationFailed (message : String)
deriving DecidableEq

/-- Configuration resolved by `New` and closed over by the handler it
returns: the application handle and the effective error-status-code
handler. -/
structure ResolvedMiddleware where
  app : Nat
  errorStatusCodeHandler : FiberCtx → GoError → Int

/-- Result of calling `New`: either a panic, or the returned
`fiber.Handler`, represented by the data the closure captures. -/
inductive NewResult where
  | panicked (kind : PanicKind)
  | handler (mw : ResolvedMiddleware)

/-- Embedding of `New` (fiber.go, lines 37-66: the construction phase).
`newApplication` abstracts the external `newrelic.NewApplication` call:
given the app name, the license and the enabled flag it yields a fresh
application handle or an initialization error. -/
def New (newApplication : String → String → Bool → Except String Nat)
    (cfg : Config) : NewResult :=
  let errHandler := cfg.ErrorStatusCodeHandler.getD DefaultErrorStatusCodeHandler
  match cfg.Application with
  | some app => NewResult.handler ⟨app, errHandler⟩
  | none =>
      let appName := if cfg.AppName = "" then ConfigDefault.AppName else cfg.AppName
      if cfg.License = "" then NewResult.panicked PanicKind.licenseEmpty
      else
        match newApplication appName cfg.License cfg.Enabled with
        | Except.ok app => NewResult.handler ⟨app, errHandler⟩
        | Except.error msg => NewResult.panicked (PanicKind.appCreationFailed msg)

/-- Event-shape test: is this a `StartTransaction` call? -/
def Event.isStart : Event → Bool
  | .startTransaction _ _ => true
  | _ => false

/-- Event-shape test: is this the `c.Next()` invocation marker? -/
def Event.isHandlerInvoked : Event → Bool
  | .handlerInvoked => true
  | _ => false

/-- Event-shape test: is this a `NoticeError` call? -/
def Event.isNoticeError : Event → Bool
  | .noticeError _ _ => true
  | _ => false

/-- Event-shape test: is this a `SetWebResponse(nil).WriteHeader` call? -/
def Event.isWriteHeader : Event → Bool
  | .writeHeader _ _ => true
  | _ => false

/-- Event-shape test: is this a `txn.End()` call? -/
def Event.isEnd : Event → Bool
  | .endTransaction _ => true
  | _ => false

/-- Payload extractor for `SetWebRequest` events. -/
def Event.setWebRequestPayload : Event → Option WebRequest
  | .setWebRequest _ request => some request
  | _ => none

/-- Monitoring-library stub whose initialization always fails. -/
def failingNewApplication : String → String → Bool → Except String Nat :=
  fun _ _ _ => Except.error "init failed"

/-- Monitoring-library stub whose initialization always yields handle 0. -/
def okNewApplication : String → String → Bool → Except String Nat :=
  fun _ _ _ => Except.ok 0

/-- Concrete request context used to instantiate the theorems. -/
def sampleCtx : FiberCtx :=
  { hostname := "example.com",
    method := "GET",
    scheme := "http",
    path := "/users/42",
    queryString := "a=1",
    responseStatusCode := 200,
    userContext := Context.background }

/-- Claim C1: when the downstream handler (`c.Next()`) returns a non-nil
error `e`, the middleware returns exactly `e` unaltered to its caller,
invokes `NoticeError` on the transaction with exactly `e` (and no other
error), and the status code reported via `SetWebResponse(nil).WriteHeader`
is `errorStatusCodeHandler(c, e)` — computed on the post-handler context —
rather than the response's status code. -/
theorem claim1_error_propagation (eh : FiberCtx → GoError → Int) (txn : Nat)
    (c : FiberCtx) (sc : Int) (e : GoError) :
    (middlewareHandler eh txn c ⟨some e, sc⟩).returnedErr = some e ∧
    Event.noticeError txn e ∈ (middlewareHandler eh txn c ⟨some e, sc⟩).events ∧
    (middlewareHandler eh txn c ⟨some e, sc⟩).events.countP Event.isNoticeError = 1 ∧
    Event.writeHeader txn (eh (c.afterNext txn sc) e) ∈
      (middlewareHandler eh txn c ⟨some e, sc⟩).events ∧
    (middlewareHandler eh txn c ⟨some e, sc⟩).events.countP Event.isWriteHeader = 1 := by
  simp [middlewareHandler, Event.isNoticeError, Event.isWriteHeader, List.countP_cons]

/-- Claim C2: for every request (with or without a handler error), the
transaction is started exactly once before the handler is invoked and ended
exactly once after the handler returns; the end runs on every exit path,
and the response metadata (`WriteHeader`) is finalized before the end. -/
theorem claim2_transaction_lifecycle (eh : FiberCtx → GoError → Int) (txn : Nat)
    (c : FiberCtx) (next : HandlerResult) :
    (middlewareHandler eh txn c next).events.countP Event.isStart = 1 ∧
    (middlewareHandler eh txn c next).events.countP Event.isEnd = 1 ∧
    (middlewareHandler eh txn c next).events.countP Event.isHandlerInvoked = 1 ∧
    (middlewareHandler eh txn c next).events.countP Event.isWriteHeader = 1 ∧
    (middlewareHandler eh txn c next).events.findIdx Event.isStart <
      (middlewareHandler eh txn c next).events.findIdx Event.isHandlerInvoked ∧
    (middlewareHandler eh txn c next).events.findIdx Event.isHandlerInvoked <
      (middlewareHandler eh txn c next).events.findIdx Event.isWriteHeader ∧
    (middlewareHandler eh txn c next).events.findIdx Event.isWriteHeader <
      (middlewareHandler eh txn c next).events.findIdx Event.isEnd ∧
    (middlewareHandler eh txn c next).events.findIdx Event.isEnd <
      (middlewareHandler eh txn c next).events.length := by
  obtain ⟨err, sc⟩ := next
  cases err <;>
    simp [middlewareHandler, Event.isStart, Event.isEnd, Event.isHandlerInvoked,
      Event.isWriteHeader, List.countP_cons, List.findIdx_cons]

/-- Claim C3: calling `New` with a nil `Application` and an empty `License`
panics with the empty-license error and never returns a handler; with an
injected `Application` the call returns a handler (no panic), and with a
non-empty `License` the empty-license panic cannot occur. -/
theorem claim3_construction_panic (na : String → String → Bool → Except String Nat)
    (cfg : Config) :
    (cfg.Application = none → cfg.License = "" →
      New na cfg = NewResult.panicked PanicKind.licenseEmpty) ∧
    (∀ a, cfg.Application = some a →
      New na cfg = NewResult.handler
        ⟨a, cfg.ErrorStatusCodeHandler.getD DefaultErrorStatusCodeHandler⟩) ∧
    (cfg.License ≠ "" → New na cfg ≠ NewResult.panicked PanicKind.licenseEmpty) := by
  refine ⟨fun hA hL => by simp [New, hA, hL], fun a hA => by simp [New, hA], fun hL => ?_⟩
  cases hA : cfg.Application with
  | some a => simp [New, hA]
  | none =>
    simp only [New, hA]
    rw [if_neg hL]
    cases na (if cfg.AppName = "" then ConfigDefault.AppName else cfg.AppName)
        cfg.License cfg.Enabled <;> simp

/-- Witness for claim C3: `ConfigDefault` (empty license, nil application)
panics; an injected application handle yields a handler; a non-empty license
never triggers the empty-license panic even when the library fails. -/
theorem claim3_construction_panic_witness :
    New okNewApplication ConfigDefault = NewResult.panicked PanicKind.licenseEmpty ∧
    New okNewApplication { ConfigDefault with Application := some 7 } =
      NewResult.handler ⟨7, DefaultErrorStatusCodeHandler⟩ ∧
    New failingNewApplication { ConfigDefault with License := "key" } ≠
      NewResult.panicked PanicKind.licenseEmpty :=
  ⟨(claim3_construction_panic okNewApplication ConfigDefault).1 rfl rfl,
   (claim3_construction_panic okNewApplication _).2.1 7 rfl,
   (claim3_construction_panic failingNewApplication _).2.2 (by decide)⟩

/-- Claim C4: `transport` classifies a scheme with prefix `"https"` as
secure transport, a scheme with prefix `"http"` but not `"https"` as plain
transport, anything else as unknown; the match is case-sensitive, so
`"HTTPS"` classifies as unknown. -/
theorem claim4_transport_classification (s : String) :
    ("https".data.isPrefixOf s.data = true → transport s = TransportType.TransportHTTPS) ∧
    ("https".data.isPrefixOf s.data = false → "http".data.isPrefixOf s.data = true →
      transport s = TransportType.TransportHTTP) ∧
    ("https".data.isPrefixOf s.data = false → "http".data.isPrefixOf s.data = false →
      transport s = TransportType.TransportUnknown) ∧
    transport "HTTPS" = TransportType.TransportUnknown := by
  refine ⟨fun h => by simp [transport, h], fun h1 h2 => by simp [transport, h1, h2],
    fun h1 h2 => by simp [transport, h1, h2], by decide⟩

/-- Witness for claim C4: concrete schemes exercising all three branches. -/
theorem claim4_transport_classification_witness :
    transport "https://x" = TransportType.TransportHTTPS ∧
    transport "http://x" = TransportType.TransportHTTP ∧
    transport "ftp" = TransportType.TransportUnknown :=
  ⟨(claim4_transport_classification "https://x").1 (by decide),
   (claim4_transport_classification "http://x").2.1 (by decide) (by decide),
   (claim4_transport_classification "ftp").2.2.1 (by decide) (by decide)⟩

/-- Claim C5: `DefaultErrorStatusCodeHandler` returns the status code
carried by the error when the error is a `*fiber.Error` (in particular 404
for an error carrying 404), and otherwise the status code already set on
the response. -/
theorem claim5_default_error_mapping (c : FiberCtx) :
    (∀ code msg, DefaultErrorStatusCodeHandler c (GoError.fiberError code msg) = code) ∧
    (∀ e, e.asFiberError = none →
      DefaultErrorStatusCodeHandler c e = c.responseStatusCode) ∧
    (∀ msg, DefaultErrorStatusCodeHandler c (GoError.fiberError 404 msg) = 404) := by
  refine ⟨fun code msg => rfl, fun e he => ?_, fun msg => rfl⟩
  simp [DefaultErrorStatusCodeHandler, he]

/-- Witness for claim C5: a `*fiber.Error` carrying 404 maps to 404; a
generic error maps to the response's status code (200 on `sampleCtx`). -/
theorem claim5_default_error_mapping_witness :
    DefaultErrorStatusCodeHandler sampleCtx (GoError.fiberError 404 "not found") = 404 ∧
    DefaultErrorStatusCodeHandler sampleCtx (GoError.errorString "boom") = 200 :=
  ⟨(claim5_default_error_mapping sampleCtx).2.2 "not found",
   (claim5_default_error_mapping sampleCtx).2.1 (GoError.errorString "boom") rfl⟩

/-- Claim C6: the transaction name is the request method and path joined by
a single space; for method `GET` and path `/users/42` it is exactly
`"GET /users/42"`. -/
theorem claim6_transaction_name (c : FiberCtx) :
    createTransactionName c = c.method ++ " " ++ c.path ∧
    (c.method = "GET" → c.path = "/users/42" →
      createTransactionName c = "GET /users/42") := by
  refine ⟨rfl, fun hm hp => ?_⟩
  simp [createTransactionName, hm, hp]

/-- Witness for claim C6: `sampleCtx` has method `GET` and path `/users/42`. -/
theorem claim6_transaction_name_witness :
    createTransactionName sampleCtx = "GET /users/42" :=
  (claim6_transaction_name sampleCtx).2 rfl rfl

/-- Claim C7: `FromContext` is a pure lookup: on a context that never passed
through the middleware it returns `none`; on the context the middleware
published it returns exactly the transaction the middleware started for
that request (the one named in the `startTransaction` event); it never
creates a transaction (its value is always the stored one). -/
theorem claim7_from_context_lookup (eh : FiberCtx → GoError → Int) (txn : Nat)
    (c : FiberCtx) (next : HandlerResult) :
    (∀ d : FiberCtx, d.userContext = Context.background → FromContext d = none) ∧
    (∀ d : FiberCtx, FromContext d = d.userContext.txnValue) ∧
    FromContext { c with
      userContext := (middlewareHandler eh txn c next).publishedContext } = some txn ∧
    Event.startTransaction txn (createTransactionName c) ∈
      (middlewareHandler eh txn c next).events := by
  obtain ⟨err, sc⟩ := next
  refine ⟨fun d hd => ?_, fun d => rfl, ?_, ?_⟩
  · simp [FromContext, newrelicFromContext, hd, Context.background]
  · cases err <;>
      simp [middlewareHandler, FromContext, newrelicFromContext, newrelicNewContext]
  · cases err <;> simp [middlewareHandler]

/-- Witness for claim C7: fresh context looks up to `none`; the context
published by a concrete middleware run looks up to its transaction. -/
theorem claim7_from_context_lookup_witness :
    FromContext sampleCtx = none ∧
    FromContext { sampleCtx with
      userContext := (middlewareHandler DefaultErrorStatusCodeHandler 5 sampleCtx
        ⟨none, 200⟩).publishedContext } = some 5 :=
  ⟨(claim7_from_context_lookup DefaultErrorStatusCodeHandler 5 sampleCtx ⟨none, 200⟩).1
      sampleCtx rfl,
   (claim7_from_context_lookup DefaultErrorStatusCodeHandler 5 sampleCtx ⟨none, 200⟩).2.2.1⟩

/-- Claim C8: when a pre-built `Application` handle is supplied, `License`
and `AppName` are ignored: two configurations sharing the same non-nil
`Application` and the same `ErrorStatusCodeHandler` yield equal results
from `New` (hence identical middleware), even under different library
stubs, and the result is a handler — no license validation happens. -/
theorem claim8_application_overrides_credentials
    (na1 na2 : String → String → Bool → Except String Nat)
    (cfg1 cfg2 : Config) (a : Nat) :
    cfg1.Application = some a → cfg2.Application = some a →
    cfg1.ErrorStatusCodeHandler = cfg2.ErrorStatusCodeHandler →
    New na1 cfg1 = New na2 cfg2 ∧
    New na1 cfg1 = NewResult.handler
      ⟨a, cfg1.ErrorStatusCodeHandler.getD DefaultErrorStatusCodeHandler⟩ := by
  intro h1 h2 h3
  exact ⟨by simp [New, h1, h2, h3], by simp [New, h1]⟩

/-- Witness for claim C8: two configurations differing in `License` and
`AppName` (one empty license, one an arbitrary string) but sharing
`Application := some 7` give equal `New` results, even with a failing
library stub on one side. -/
theorem claim8_application_overrides_credentials_witness :
    New failingNewApplication
      { License := "", AppName := "first", Enabled := true, TransportType := "",
        Application := some 7, ErrorStatusCodeHandler := none } =
    New okNewApplication
      { License := "completely-different", AppName := "second", Enabled := true,
        TransportType := "", Application := some 7, ErrorStatusCodeHandler := none } :=
  (claim8_application_overrides_credentials failingNewApplication okNewApplication
    _ _ 7 rfl rfl rfl).1

/-- Claim C9: the deprecated `TransportType` configuration field has no
effect: changing it changes nothing about `New`'s result, and the transport
recorded in the `SetWebRequest` call of every middleware run is always
derived from the request URL's scheme. -/
theorem claim9_transport_type_ignored (na : String → String → Bool → Except String Nat)
    (cfg : Config) (t : String) (eh : FiberCtx → GoError → Int) (txn : Nat)
    (c : FiberCtx) (next : HandlerResult) :
    New na { cfg with TransportType := t } = New na cfg ∧
    ((middlewareHandler eh txn c next).events.filterMap Event.setWebRequestPayload).map
      WebRequest.Transport = [transport c.scheme] := by
  constructor
  · cases cfg; rfl
  · obtain ⟨err, sc⟩ := next
    cases err <;> simp [middlewareHandler, Event.setWebRequestPayload]

/-- Claim C10: `DefaultErrorStatusCodeHandler` recognizes a carried status
code only when the error's dynamic type is exactly `*fiber.Error`: an error
that merely wraps a `*fiber.Error` falls back to the response's status code
(200 on `sampleCtx`, not the wrapped 404), while the unwrapped
`*fiber.Error` itself yields its own code. -/
theorem claim10_no_error_unwrapping (c : FiberCtx) (msg : String) (inner : GoError) :
    DefaultErrorStatusCodeHandler c (GoError.wrapped msg inner) = c.responseStatusCode ∧
    DefaultErrorStatusCodeHandler sampleCtx
      (GoError.wrapped "wrap" (GoError.fiberError 404 "nf")) = 200 ∧
    DefaultErrorStatusCodeHandler sampleCtx (GoError.fiberError 404 "nf") = 404 :=
  ⟨rfl, rfl, rfl⟩

end Fibernewrelic
